import Mathlib

/-!
Shallow embedding of the pycallblock modem engine
(`src/pycallblock/modem.py`, `src/pycallblock/util.py`) and proofs about
its parsing, codec, state-machine and supervisor logic.

Bytes are modelled as `Nat` (values < 256 in practice), decoded text as
`List Char`; Python exceptions are modelled with `Option` (`none` = the
operation raises).
-/

namespace Pycallblock

/-- Shorthand: a Lean string literal as the `List Char` our text model uses. -/
def str (s : String) : List Char := s.toList

/-! ### Python text primitives used by modem.py -/

/-- Python whitespace stripped by `bytes.strip()` / `str.strip()` on ASCII data. -/
def isPyWS (c : Char) : Bool :=
  c = ' ' || c = '\t' || c = '\n' || c = '\r' || c = '\x0b' || c = '\x0c'

/-- Python `.strip()` with no argument: drop whitespace from both ends. -/
def pyStrip (s : List Char) : List Char :=
  ((s.dropWhile isPyWS).reverse.dropWhile isPyWS).reverse

/-- A line-terminator character, the character class of `re.split("[\r\n]+", ...)`. -/
def isTermChar (c : Char) : Bool := c = '\r' || c = '\n'

/-- Python `re.split("[\r\n]+", s)`: split on maximal runs of `\r`/`\n`.
A run in the middle yields one boundary; a run at either end yields an
empty segment at that end, exactly as `re.split` does. -/
def splitRuns : List Char → List (List Char)
  | [] => [[]]
  | c :: rest =>
    let r := splitRuns rest
    if isTermChar c then
      match rest with
      | c2 :: _ => if isTermChar c2 then r else [] :: r
      | [] => [] :: r
    else
      match r with
      | h :: t => (c :: h) :: t
      | [] => [[c]]

/-- Does `needle` occur as a contiguous substring of the second argument
(Python's `needle in hay` on `str`/`bytes`)? -/
def substrIn (needle : List Char) : List Char → Bool
  | [] => needle.isEmpty
  | c :: t => needle.isPrefixOf (c :: t) || substrIn needle t

/-- Python `part.split(" = ")`: split on each non-overlapping occurrence of
the three-character separator, scanning left to right. -/
def splitEqAux : List Char → List Char → List (List Char)
  | ' ' :: '=' :: ' ' :: rest, acc => acc.reverse :: splitEqAux rest []
  | c :: rest, acc => splitEqAux rest (c :: acc)
  | [], acc => [acc.reverse]

/-- Python `s.split(" = ")`. -/
def splitEq (s : List Char) : List (List Char) := splitEqAux s []

/-- Python `'\n'.join(segments)`. -/
def joinNL (segs : List (List Char)) : List Char := List.intercalate ['\n'] segs

/-- Python `s.removeprefix(pre)`. -/
def dropLeading (pre s : List Char) : List Char :=
  if pre.isPrefixOf s then s.drop pre.length else s

/-- Python `s.replace("AT", '')`: delete every non-overlapping occurrence of
`"AT"`, scanning left to right (`Modem.CLPREFIX` is `"AT"`). -/
def removeAT : List Char → List Char
  | 'A' :: 'T' :: rest => removeAT rest
  | c :: rest => c :: removeAT rest
  | [] => []

/-- One of the characters of Python's `strip("=?")` argument. -/
def isEqQ (c : Char) : Bool := c = '=' || c = '?'

/-- Python `s.strip("=?")`. -/
def stripEqQ (s : List Char) : List Char :=
  ((s.dropWhile isEqQ).reverse.dropWhile isEqQ).reverse

/-- Python `s.strip(b';')` used by `Modem.send` on each response chunk. -/
def stripSemis (s : List Char) : List Char :=
  ((s.dropWhile (· = ';')).reverse.dropWhile (· = ';')).reverse

/-! ### modem.py enums -/

/-- `ResultCode` enum (modem.py lines 24-33). -/
inductive ResultCode
  | OK
  | CONNECT
  | RING
  | NO_CARRIER
  | ERROR
  | DIGITAL_LINE_DETECTED
deriving DecidableEq

/-- The wire value of each `ResultCode` member. -/
def ResultCode.value : ResultCode → List Char
  | .OK => str "OK"
  | .CONNECT => str "CONNECT"
  | .RING => str "RING"
  | .NO_CARRIER => str "NO CARRIER"
  | .ERROR => str "ERROR"
  | .DIGITAL_LINE_DETECTED => str "DIGITAL LINE DETECTED"

/-- Iteration order of the Python enum (declaration order). -/
def resultCodes : List ResultCode :=
  [.OK, .CONNECT, .RING, .NO_CARRIER, .ERROR, .DIGITAL_LINE_DETECTED]

/-- Python `ResultCode(s)`: the member whose value equals `s`, else a
`ValueError` (modelled by `none`). -/
def parseResultCode (s : List Char) : Option ResultCode :=
  resultCodes.find? (fun rc => rc.value == s)

/-- `Mode` enum (modem.py lines 36-41). -/
inductive Mode
  | DATA
  | FAX_CLASS_1
  | FAX_CLASS_1_0
  | FAX_CLASS_2
  | VOICE
deriving DecidableEq

/-- `State` enum (modem.py lines 44-50). -/
inductive State
  | INITIALIZED
  | WAITING_EVENT
  | VOICE_COMMAND
  | VOICE_RECEIVE
  | VOICE_TRANSMIT
  | VOICE_DUPLEX
deriving DecidableEq

/-- The sixteen DTMF wire characters (values of the `DTMF` enum,
modem.py lines 53-69). -/
def dtmfChars : List Char := str "0123456789ABCD*#"

/-! ### CommandResponse (modem.py lines 173-215) -/

/-- `CommandResponse`: one command's full exchange. -/
structure CommandResponse where
  cmd : List Char
  data : Option (List Char)
  result_code : ResultCode
  raw : List Char
deriving DecidableEq

/-- `CommandResponse.is_ok` (modem.py lines 200-202). -/
def CommandResponse.is_ok (r : CommandResponse) : Bool :=
  r.result_code == ResultCode.OK

/-- The `extra` prefix stripped from a data payload:
`cmd.replace(Modem.CLPREFIX, '').strip("=?") + ": "` (modem.py line 212). -/
def extraOf (cmd : List Char) : List Char :=
  stripEqQ (removeAT cmd) ++ [':', ' ']

/-- `CommandResponse.from_bytes` (modem.py lines 204-215): strip, split on
`[\r\n]+`, pop the command from the front and the result code from the back
(an `IndexError` or `ValueError` is `none`), join the middle with `\n` and
remove the redundant echoed-command prefix. -/
def CommandResponse.from_bytes (bs : List Char) : Option CommandResponse :=
  match splitRuns (pyStrip bs) with
  | [] => none
  | cmd :: rest =>
    match rest.getLast? with
    | none => none
    | some lastSeg =>
      match parseResultCode lastSeg with
      | none => none
      | some rc =>
        let mid := rest.dropLast
        let data : Option (List Char) :=
          if mid.isEmpty then none
          else some (dropLeading (extraOf cmd) (joinNL mid))
        some ⟨cmd, data, rc, bs⟩

/-! ### Event and Call (modem.py lines 72-170) -/

/-- The payload of an `Event`: Python stores either the decoded string
itself or a dict of `KEY = VALUE` pairs in `self._data`. -/
inductive EventData
  | scalar (s : List Char)
  | fields (m : List (List Char × List Char))
deriving DecidableEq

/-- An unsolicited transport message (timestamp omitted: no claim uses it). -/
structure Event where
  data : EventData
  raw : List Char
deriving DecidableEq

/-- Python `x in self._data`: substring containment on a string, key
membership on a dict. -/
def pyIn (needle : List Char) : EventData → Bool
  | .scalar s => substrIn needle s
  | .fields m => m.any (fun p => p.1 == needle)

/-- Python `dict_[key] = val`: overwrite in place or append. -/
def dictSet (m : List (List Char × List Char)) (k v : List Char) :
    List (List Char × List Char) :=
  if m.any (fun p => p.1 == k) then
    m.map (fun p => if p.1 == k then (k, v) else p)
  else m ++ [(k, v)]

/-- Python `dict_.get(key)`. -/
def dictGet (m : List (List Char × List Char)) (k : List Char) :
    Option (List Char) :=
  (m.find? (fun p => p.1 == k)).map (·.2)

/-- The dict-building loop of `Event.from_bytes` (modem.py lines 166-169):
every part must split into exactly `key, val` on `" = "`, else `ValueError`. -/
def buildDict (parts : List (List Char)) :
    Option (List (List Char × List Char)) :=
  parts.foldlM (fun d part =>
    match splitEq part with
    | [k, v] => some (dictSet d k v)
    | _ => none) []

/-- The `" = "` separator. -/
def sepEq : List Char := [' ', '=', ' ']

/-- `Event.from_bytes` (modem.py lines 161-170). -/
def Event.from_bytes (bs : List Char) : Option Event :=
  let data := pyStrip bs
  if substrIn sepEq data then
    match buildDict (splitRuns data) with
    | some m => some ⟨.fields m, bs⟩
    | none => none
  else
    some ⟨.scalar data, bs⟩

/-- `Event.is_message_event` (modem.py lines 149-151). -/
def Event.is_message_event (e : Event) : Bool :=
  pyIn (str "MSG_WAITING") e.data

/-- `Event.is_call` (modem.py lines 153-155). -/
def Event.is_call (e : Event) : Bool :=
  pyIn (str "DATE") e.data && pyIn (str "TIME") e.data && !e.is_message_event

/-- `Event.is_ring` (modem.py lines 140-147): `ResultCode(self._data)`
raises on a dict (and a dict never equals the `"\x10R"` string). -/
def Event.is_ring (e : Event) : Bool :=
  match e.data with
  | .scalar s =>
    match parseResultCode s with
    | some rc => rc == ResultCode.RING
    | none => s == ['\x10', 'R']
  | .fields _ => false

/-- A classified incoming call (timestamp omitted: no claim uses it). -/
structure Call where
  number : Option (List Char)
  name : Option (List Char)
deriving DecidableEq

/-- `Call.from_event` (modem.py lines 109-111): `event.data.get(...)`
raises `AttributeError` on a scalar event (modelled by `none`). -/
def Call.from_event (e : Event) : Option Call :=
  match e.data with
  | .fields m => some ⟨dictGet m (str "NMBR"), dictGet m (str "NAME")⟩
  | .scalar _ => none

/-! ### Modem instance state (the mutable fields of `Modem.__init__`,
modem.py lines 254-272, that the claims exercise) -/

/-- The `_last_dtmf` field: `'/'` (shield opened) or a captured DTMF value;
`none` models Python `None`. -/
inductive LastDtmf
  | mark
  | tone (c : Char)
deriving DecidableEq

/-- The mutable fields of a `Modem` object touched by the claims.
`dtmf_fired` records the DTMF callbacks dispatched, `bg` the background
tasks spawned, `spawned` counts event-loop tasks ever created and
`event_loop` holds the id of the current one. -/
structure PyModem where
  mode : Option Mode
  state : Option State
  stop_event : Option String
  running : Bool
  silence : Bool
  last_dtmf : Option LastDtmf
  dtmf_fired : List Char
  event_loop : Option Nat
  spawned : Nat
  bg : List String
deriving DecidableEq

/-! ### DLE escape codec (modem.py lines 494-531) -/

/-- `Modem._catch_dtmf` (modem.py lines 494-503), applied to the decoded
payload character of a shielded code. -/
def catch_dtmf (st : PyModem) (code : Char) : PyModem :=
  if code = '/' then { st with last_dtmf := some .mark }
  else if code = '~' then
    match st.last_dtmf with
    | some (.tone d) =>
      { st with dtmf_fired := st.dtmf_fired ++ [d], last_dtmf := none }
    | _ =>
      -- '~' is not a DTMF value, so the next elif fails and the else runs.
      { st with last_dtmf := none }
  else if dtmfChars.contains code && st.last_dtmf = some LastDtmf.mark then
    { st with last_dtmf := some (.tone code) }
  else { st with last_dtmf := none }

/-- `Modem._catch_dsc` (modem.py lines 505-518): the `re.sub` replacement
callback for a matched `<DLE>` pair. Returns the replacement bytes;
`code.decode()` raises `UnicodeDecodeError` on a non-ASCII byte (`none`). -/
def catch_dsc (st : PyModem) (code : Nat) : Option (PyModem × List Nat) :=
  if code = 0x62 then some ({ st with stop_event := some "busy" }, [])
  else if code = 0x10 then some (st, [0x10])
  else if code < 0x80 then some (catch_dtmf st (Char.ofNat code), [])
  else none

/-- `re.sub(DLE + b"(.)", self._catch_dsc, data)` (modem.py line 528):
leftmost non-overlapping matches, where `.` matches any byte except
`\n` (`0x0a`) because `re.DOTALL` is not set, so a `<DLE>` pair whose
payload is `0x0a` is left in place. -/
def dle_sub (st : PyModem) : List Nat → Option (PyModem × List Nat)
  | [] => some (st, [])
  | [b] =>
    -- A lone final byte is emitted unchanged: a pair needs two bytes
    -- (the read loop of `_receive` never lets data end with a DLE anyway).
    some (st, [b])
  | b :: c :: rest =>
    if b = 0x10 then
      if c = 0x0a then
        (dle_sub st (c :: rest)).map (fun p => (p.1, b :: p.2))
      else
        match catch_dsc st c with
        | none => none
        | some (st1, rep) =>
          (dle_sub st1 rest).map (fun p => (p.1, rep ++ p.2))
    else
      (dle_sub st (c :: rest)).map (fun p => (p.1, b :: p.2))

/-! ### Voice receive / transmit loops (modem.py lines 520-573) -/

/-- `audioop.rms(fragment, 1)`: root-mean-square of the fragment with
samples read as signed 8-bit, 0 on an empty fragment. The C code takes
`(int)sqrt(sum_squares / len)`; since `floor ∘ sqrt` commutes with the
integer floor of the quotient this equals `Nat.sqrt` of the `Nat` quotient. -/
def signedSq (b : Nat) : Nat :=
  if b < 128 then b * b else (256 - b) * (256 - b)

/-- `audioop.rms` on a byte list (width 1). -/
def audioop_rms (frag : List Nat) : Nat :=
  if frag.isEmpty then 0
  else Nat.sqrt ((frag.map signedSq).sum / frag.length)

/-- One iteration of the `while self._stop_event is None` body of
`Modem._receive` (modem.py lines 524-535). `data` is the chunk read this
iteration (the inner read loop has already completed any trailing `DLE`),
`timeoutHit` is `time.monotonic() - start >= max_duration`. Returns the
updated state and the `new_audio` appended to the session's audio. -/
def receive_iter (st : PyModem) (data : List Nat) (timeoutHit : Bool) :
    Option (PyModem × List Nat) :=
  match dle_sub st data with
  | none => none
  | some (st1, new_audio) =>
    let st2 := { st1 with silence := decide (126 ≤ audioop_rms new_audio) }
    let st3 :=
      if timeoutHit then { st2 with stop_event := some "timeout" }
      else if st2.running = false then { st2 with stop_event := some "exit" }
      else st2
    some (st3, new_audio)

/-- The `while self._stop_event is None` loop of `Modem._receive`
(modem.py lines 524-535), driven by a finite trace of per-iteration inputs.
Returns the final state and the accumulated audio. -/
def receive_loop (st : PyModem) :
    List (List Nat × Bool) → Option (PyModem × List Nat)
  | [] => some (st, [])
  | (data, timeoutHit) :: rest =>
    match st.stop_event with
    | some _ => some (st, [])
    | none =>
      match receive_iter st data timeoutHit with
      | none => none
      | some (st1, audio) =>
        (receive_loop st1 rest).map (fun p => (p.1, audio ++ p.2))

/-- One iteration of the `while self._stop_event is None` body of
`Modem._transmit` (modem.py lines 560-567). `outLow` is
`self.serial.out_waiting < minimum`; returns the bytes written (a 0.2 s
silence filler when the backlog is low). -/
def transmit_iter (st : PyModem) (outLow timeoutHit : Bool) :
    PyModem × List Nat :=
  let written : List Nat := if outLow then List.replicate 1600 0x80 else []
  let st1 :=
    if timeoutHit then { st with stop_event := some "timeout" }
    else if st.running = false then { st with stop_event := some "exit" }
    else st
  (st1, written)

/-- The `while self._stop_event is None` loop of `Modem._transmit`. -/
def transmit_loop (st : PyModem) : List (Bool × Bool) → PyModem × List Nat
  | [] => (st, [])
  | (outLow, timeoutHit) :: rest =>
    match st.stop_event with
    | some _ => (st, [])
    | none =>
      let p := transmit_iter st outLow timeoutHit
      let q := transmit_loop p.1 rest
      (q.1, p.2 ++ q.2)

/-- `Modem.stop_voice` (modem.py lines 681-682). -/
def stop_voice (st : PyModem) : PyModem :=
  { st with stop_event := some "stop" }

/-! ### start_voice_* (modem.py lines 587-629).
The functions first send a gain command (response ignored), then the start
command; `startCode` is the result code of that `+VRX`/`+VTR`/`+VTX`
response. Only the mode is checked — there is no guard on `self._state`. -/

/-- `Modem.start_voice_receive` (modem.py lines 587-598). -/
def start_voice_receive (m : PyModem) (startCode : ResultCode) :
    Bool × PyModem :=
  if m.mode ≠ some Mode.VOICE then (false, m)
  else if startCode ≠ ResultCode.CONNECT then (false, m)
  else (true, { m with state := some State.VOICE_RECEIVE, stop_event := none,
                       bg := m.bg ++ ["RX"] })

/-- `Modem.start_voice_duplex` (modem.py lines 600-614). -/
def start_voice_duplex (m : PyModem) (startCode : ResultCode) :
    Bool × PyModem :=
  if m.mode ≠ some Mode.VOICE then (false, m)
  else if startCode ≠ ResultCode.CONNECT then (false, m)
  else (true, { m with state := some State.VOICE_DUPLEX, stop_event := none,
                       bg := m.bg ++ ["RX", "TX", "SD", "play_queue"] })

/-- `Modem.start_voice_transmit` (modem.py lines 616-629). -/
def start_voice_transmit (m : PyModem) (startCode : ResultCode) :
    Bool × PyModem :=
  if m.mode ≠ some Mode.VOICE then (false, m)
  else if startCode ≠ ResultCode.CONNECT then (false, m)
  else (true, { m with state := some State.VOICE_TRANSMIT, stop_event := none,
                       bg := m.bg ++ ["RX", "TX", "play_queue"] })

/-! ### set_mode / set_caller_id (modem.py lines 449-478) -/

/-- `Modem.set_mode` (modem.py lines 449-466); `resp` is the single
response of `send(f"+FCLASS={mode.value}")`. -/
def set_mode (m : PyModem) (mode : Mode) (resp : CommandResponse) :
    Bool × PyModem :=
  if resp.is_ok then (true, { m with mode := some mode })
  else (false, m)

/-- `Modem.set_caller_id` (modem.py lines 477-478). -/
def set_caller_id (resp : CommandResponse) : Bool := resp.is_ok

/-! ### Event-loop supervisor (modem.py lines 719-729) -/

/-- How an asyncio task can finish. -/
inductive TaskOutcome
  | completed
  | cancelled
  | failed (msg : String)
deriving DecidableEq

/-- The task's `_exception` slot: set only for an uncaught failure; a
cancelled task's exception slot stays `None` (asyncio stores the
`CancelledError` separately). -/
def taskException : TaskOutcome → Option String
  | .failed e => some e
  | _ => none

/-- `Modem.start_event_loop` (modem.py lines 719-729): refuse when a loop
task is already registered, else create a fresh task. -/
def start_event_loop (m : PyModem) : PyModem :=
  if m.event_loop.isSome then m
  else { m with event_loop := some m.spawned, spawned := m.spawned + 1 }

/-- The `done_callback` attached to the event-loop task (modem.py lines
724-727): on an uncaught failure, clear the slot and start a fresh task. -/
def loop_done_callback (m : PyModem) (outcome : TaskOutcome) : PyModem :=
  if (taskException outcome).isSome then
    start_event_loop { m with event_loop := none }
  else m

/-! ### util.wav_duration and silence (util.py lines 4-12, modem.py
lines 797-802) -/

/-- `wav_duration`: `none` for a missing/invalid file (the function
returns Python `None`), else `nframes / framerate` as exact division
(`getparams()[2:4]` is `(framerate, nframes)`). -/
def wav_duration : Option (Nat × Nat) → Option Rat
  | none => none
  | some (framerate, nframes) => some ((nframes : Rat) / (framerate : Rat))

/-- Python `int(q)`: truncation toward zero. -/
def pyInt (q : Rat) : Int :=
  q.num.sign * ((q.num.natAbs / q.den : Nat) : Int)

/-- `silence(seconds, framerate)` (modem.py lines 797-802):
`b'\x80' * int(seconds * framerate)`. -/
def silence (seconds : Rat) (framerate : Nat) : List Nat :=
  List.replicate (pyInt (seconds * (framerate : Rat))).toNat 0x80

/-! ### Command engine (modem.py lines 344-404) -/

/-- `Modem._commandify` (modem.py lines 377-384): uppercase, ensure the
`"AT"` prefix and the trailing S3 terminator. -/
def commandify (s3 : List Char) (cmd : List Char) : List Char :=
  let c := cmd.map Char.toUpper
  let c := if (str "AT").isPrefixOf c then c else str "AT" ++ c
  if s3.isSuffixOf c then c else c ++ s3

/-- Does `data` contain `code.value + trailer` for some result code
(the loop guard of `read_until_result`, modem.py line 352)? -/
def containsResult (trailer data : List Char) : Bool :=
  resultCodes.any (fun rc => substrIn (rc.value ++ trailer) data)

/-- `Modem.read_until_result` (modem.py lines 350-354): append one byte at
a time until the accumulated data contains a result code followed by the
trailer. An exhausted stream means the read blocks forever (`none`). -/
def read_until_result (trailer : List Char) :
    List Char → List Char → Option (List Char × List Char)
  | stream, data =>
    if containsResult trailer data then some (data, stream)
    else
      match stream with
      | [] => none
      | c :: rest => read_until_result trailer rest (data ++ [c])

/-- The `while cmd.encode() not in data` loop of `Modem.send` (modem.py
lines 393-397): read result chunks, strip `';'`, discard chunks that do
not echo the command. `fuel` bounds the recursion; each successful
`read_until_result` consumes at least one byte, so `stream.length + 1`
always suffices. -/
def awaitEcho (trailer cmd : List Char) :
    Nat → List Char → Option (List Char × List Char)
  | 0, _ => none
  | fuel + 1, stream =>
    match read_until_result trailer stream [] with
    | none => none
    | some (data, rest) =>
      let data := stripSemis data
      if substrIn cmd data then some (data, rest)
      else awaitEcho trailer cmd fuel rest

/-- Python `data.partition(cmd)` restricted to the found case: the text
before the first occurrence and the text after it (`none` when absent). -/
def partitionAt (sep : List Char) : List Char → Option (List Char × List Char)
  | [] => if sep.isEmpty then some ([], []) else none
  | c :: rest =>
    if sep.isPrefixOf (c :: rest) then some ([], (c :: rest).drop sep.length)
    else (partitionAt sep rest).map (fun p => (c :: p.1, p.2))

/-- One turn of the `for cmd in commands` loop of `Modem.send` (modem.py
lines 392-403): await the echoing chunk, split around the echo, parse
`echo + response`. -/
def sendStep (trailer cmd : List Char) (stream : List Char) :
    Option (CommandResponse × List Char) := do
  let p ← awaitEcho trailer cmd (stream.length + 1) stream
  let q ← partitionAt cmd p.1
  let r ← CommandResponse.from_bytes (cmd ++ q.2)
  some (r, p.2)

/-- The `for cmd in commands` loop of `Modem.send`, collecting the
responses in issue order. -/
def sendGo (trailer : List Char) :
    List (List Char) → List Char → Option (List CommandResponse)
  | [], _ => some []
  | cmd :: rest, stream => do
    let p ← sendStep trailer cmd stream
    let rs ← sendGo trailer rest p.2
    some (p.1 :: rs)

/-- `send` returns a bare response for one command and a list otherwise
(modem.py line 404). -/
inductive SendResult
  | single (r : CommandResponse)
  | multiple (rs : List CommandResponse)
deriving DecidableEq

/-- `Modem.send` (modem.py lines 386-404) on an already-listed argument:
commandify every fragment, write them joined by `';'` (the write itself
does not consume the response stream), then correlate one response per
fragment; `responses[0]` on an empty command list raises (`none`). -/
def send (s3 s4 : List Char) (cmds : List (List Char)) (stream : List Char) :
    Option SendResult :=
  match sendGo (s3 ++ s4) (cmds.map (commandify s3)) stream with
  | none => none
  | some [] => none
  | some [r] => some (.single r)
  | some (r1 :: r2 :: rs) => some (.multiple (r1 :: r2 :: rs))

/-! ### Concrete fixtures used by the theorems below -/

/-- A modem in voice mode with an active receive session and no stop
reason latched. -/
def m0 : PyModem :=
  { mode := some .VOICE, state := some .VOICE_RECEIVE, stop_event := none,
    running := true, silence := false, last_dtmf := none, dtmf_fired := [],
    event_loop := none, spawned := 0, bg := [] }

/-- The event parsed from `b"DATE = 0101\rTIME = 1200\rNMBR = 5551234\r"`. -/
def callEv : Event :=
  ⟨.fields [(str "DATE", str "0101"), (str "TIME", str "1200"),
            (str "NMBR", str "5551234")],
   str "DATE = 0101\rTIME = 1200\rNMBR = 5551234\r"⟩

/-- The event parsed from `b"MSG_WAITING = 1\r"`. -/
def msgEv : Event :=
  ⟨.fields [(str "MSG_WAITING", str "1")], str "MSG_WAITING = 1\r"⟩

/-- A successful `+FCLASS=8` response. -/
def respOK : CommandResponse :=
  ⟨str "AT+FCLASS=8", none, .OK, str "AT+FCLASS=8\r\r\nOK\r\n"⟩

/-- A serial byte stream answering two pipelined commands in order. -/
def demoStream : List Char := str "ATZ\r\r\nOK\r\nATI3\r\r\nOK\r\n"

/-- The two responses `send` extracts from `demoStream` for
`["ATZ", "I3"]`, in issue order. -/
def demoRs : List CommandResponse :=
  [⟨str "ATZ", none, .OK, str "ATZ\r\r\nOK\r\n"⟩,
   ⟨str "ATI3", none, .OK, str "ATI3\r\r\nOK\r\n"⟩]


/-! ## Theorems -/

/-- Claim C3 (the code violates it): the DLE decode removes the pair
`escape+escape` (reinserting one escape) and deletes other recognized
pairs such as `escape+'b'` (latching `"busy"`), but the pair whose payload
byte is `0x0a` is not matched by `re.sub(DLE + b"(.)", ...)` because `.`
does not match a newline, so both control bytes leak into the accumulated
audio, contrary to the claim and to the protocol contract quoted in the
code's own comment (modem.py lines 516-517). -/
theorem c3_theorem :
    dle_sub m0 [0x10, 0x0a] = some (m0, [0x10, 0x0a])
  ∧ dle_sub m0 [0x10, 0x10] = some (m0, [0x10])
  ∧ dle_sub m0 [0x41, 0x10, 0x62, 0x42] =
      some ({ m0 with stop_event := some "busy" }, [0x41, 0x42]) := by
  decide

/-- Claim C1 fails on the code: within a single `_receive` iteration the
DLE handler first latches `"busy"`, and the unguarded timeout check at the
end of the same iteration then replaces it with `"timeout"`; `stop_voice`
likewise overwrites an already-latched `"timeout"` with `"stop"`. -/
theorem c1_counterexample :
    dle_sub m0 [0x10, 0x62] = some ({ m0 with stop_event := some "busy" }, [])
  ∧ receive_iter m0 [0x10, 0x62] true =
      some ({ m0 with stop_event := some "timeout" }, [])
  ∧ (stop_voice { m0 with stop_event := some "timeout" }).stop_event =
      some "stop" := by
  decide

/-- Claim C1 (amended): a stop reason latched before a loop iteration is
never replaced — both session loops test `stop_event is None` before each
iteration and exit without writing; and in a receive iteration where the
timeout and exit conditions do not fire, the iteration's final stop reason
is exactly the one the DLE handler latched. But within one receive
iteration the timeout/exit checks can replace a reason the DLE handler
just latched, and `stop_voice` overwrites unconditionally with `"stop"`. -/
theorem c1_amended_theorem :
    (∀ (st : PyModem) (inputs : List (List Nat × Bool)) (r : String),
       st.stop_event = some r → receive_loop st inputs = some (st, []))
  ∧ (∀ (st : PyModem) (inputs : List (Bool × Bool)) (r : String),
       st.stop_event = some r → transmit_loop st inputs = (st, []))
  ∧ (∀ (st st1 : PyModem) (data audio : List Nat),
       dle_sub st data = some (st1, audio) → st1.running = true →
       receive_iter st data false =
         some ({ st1 with silence := decide (126 ≤ audioop_rms audio) },
               audio))
  ∧ (∀ st : PyModem, (stop_voice st).stop_event = some "stop") := by
  refine ⟨?_, ?_, ?_, fun st => rfl⟩
  · intro st inputs r h
    cases inputs with
    | nil => rfl
    | cons x rest => cases x; simp [receive_loop, h]
  · intro st inputs r h
    cases inputs with
    | nil => rfl
    | cons x rest => cases x; simp [transmit_loop, h]
  · intro st st1 data audio hsub hrun
    simp [receive_iter, hsub, hrun]

/-- Witness for the amended C1 theorem at concrete inputs. -/
theorem c1_witness :
    receive_loop { m0 with stop_event := some "busy" } [([0x41], true)] =
      some ({ m0 with stop_event := some "busy" }, [])
  ∧ (stop_voice m0).stop_event = some "stop" :=
  ⟨c1_amended_theorem.1 _ _ "busy" rfl, c1_amended_theorem.2.2.2 m0⟩

/-- Claim C2 fails on the code: `start_voice_transmit` invoked while a
receive session is active (state VOICE_RECEIVE, mode VOICE) has no
session guard — with a CONNECT reply it returns True and moves the state
to VOICE_TRANSMIT instead of failing without mutation. -/
theorem c2_counterexample :
    m0.state = some State.VOICE_RECEIVE
  ∧ (start_voice_transmit m0 ResultCode.CONNECT).1 = true
  ∧ (start_voice_transmit m0 ResultCode.CONNECT).2.state =
      some State.VOICE_TRANSMIT := by
  decide

/-- Claim C2 (amended): every `start_voice_*` call with mode ≠ VOICE, or
whose start command does not answer CONNECT, returns False and leaves the
modem object unchanged; but there is no already-active-session guard, so
with mode = VOICE and a CONNECT reply the call succeeds and transitions
the state regardless of any session in progress. -/
theorem c2_amended_theorem : ∀ (m : PyModem) (rc : ResultCode),
    (m.mode ≠ some Mode.VOICE →
       start_voice_receive m rc = (false, m) ∧
       start_voice_transmit m rc = (false, m) ∧
       start_voice_duplex m rc = (false, m))
  ∧ (rc ≠ ResultCode.CONNECT →
       start_voice_receive m rc = (false, m) ∧
       start_voice_transmit m rc = (false, m) ∧
       start_voice_duplex m rc = (false, m))
  ∧ (m.mode = some Mode.VOICE →
       start_voice_transmit m ResultCode.CONNECT =
         (true, { m with state := some State.VOICE_TRANSMIT,
                         stop_event := none,
                         bg := m.bg ++ ["RX", "TX", "play_queue"] })) := by
  intro m rc
  refine ⟨fun h => ?_, fun h => ?_, fun h => ?_⟩ <;>
    by_cases hm : m.mode = some Mode.VOICE <;>
      simp_all [start_voice_receive, start_voice_transmit, start_voice_duplex]

/-- Witness for the amended C2 theorem at concrete inputs. -/
theorem c2_witness :
    start_voice_transmit { m0 with mode := some Mode.DATA } ResultCode.CONNECT =
      (false, { m0 with mode := some Mode.DATA })
  ∧ start_voice_receive m0 ResultCode.ERROR = (false, m0)
  ∧ start_voice_transmit m0 ResultCode.CONNECT =
      (true, { m0 with state := some State.VOICE_TRANSMIT, stop_event := none,
                       bg := ["RX", "TX", "play_queue"] }) :=
  ⟨((c2_amended_theorem _ ResultCode.CONNECT).1 (by decide)).2.1,
   ((c2_amended_theorem m0 ResultCode.ERROR).2.1 (by decide)).1,
   (c2_amended_theorem m0 ResultCode.CONNECT).2.2 rfl⟩

/-- Claim C4 fails on the code in its payload sentence: the prior segments
do not always form the payload verbatim — when the join begins with the
echoed command's name plus `": "`, that redundant prefix is removed, so
for `b"AT+GMI\r+GMI: Conexant\rOK\r"` the payload is `"Conexant"`, not the
newline-join `"+GMI: Conexant"` of the prior segments. -/
theorem c4_counterexample :
    CommandResponse.from_bytes (str "AT+GMI\r+GMI: Conexant\rOK\r") =
      some ⟨str "AT+GMI", some (str "Conexant"), ResultCode.OK,
            str "AT+GMI\r+GMI: Conexant\rOK\r"⟩
  ∧ joinNL [str "+GMI: Conexant"] ≠ str "Conexant" := by
  decide

/-- Claim C4 (amended): `from_bytes` splits its stripped input on runs of
line terminators; the last remaining segment must parse as a known
`ResultCode` and an unknown code is a parse failure; the segments between
the echoed command and the result code are joined by `\n` and a redundant
`"command name: "` prefix (the command minus its `AT` prefix, stripped of
`=`/`?`) is removed to form the optional payload; for `b"ATZ\rOK\r\n"` the
command is `"ATZ"`, the payload is empty and the result code is OK. -/
theorem c4_amended_theorem :
    (∀ (bs cmd lastSeg : List Char) (rest : List (List Char)),
       splitRuns (pyStrip bs) = cmd :: rest → rest.getLast? = some lastSeg →
       parseResultCode lastSeg = none →
       CommandResponse.from_bytes bs = none)
  ∧ (∀ (bs cmd lastSeg : List Char) (rest : List (List Char))
       (rc : ResultCode),
       splitRuns (pyStrip bs) = cmd :: rest → rest.getLast? = some lastSeg →
       parseResultCode lastSeg = some rc →
       CommandResponse.from_bytes bs =
         some ⟨cmd,
               if rest.dropLast.isEmpty then none
               else some (dropLeading (extraOf cmd) (joinNL rest.dropLast)),
               rc, bs⟩)
  ∧ CommandResponse.from_bytes (str "ATZ\rOK\r\n") =
      some ⟨str "ATZ", none, ResultCode.OK, str "ATZ\rOK\r\n"⟩ := by
  refine ⟨?_, ?_, by decide⟩ <;>
    · intros bs cmd lastSeg rest
      intros
      simp_all [CommandResponse.from_bytes]

/-- Witness for the amended C4 theorem at concrete inputs. -/
theorem c4_witness :
    CommandResponse.from_bytes (str "FOO\rGARBAGE") = none
  ∧ CommandResponse.from_bytes (str "ATZ\rOK\r\n") =
      some ⟨str "ATZ",
            if ([] : List (List Char)).isEmpty then none
            else some (dropLeading (extraOf (str "ATZ")) (joinNL [])),
            ResultCode.OK, str "ATZ\rOK\r\n"⟩ :=
  ⟨c4_amended_theorem.1 (str "FOO\rGARBAGE") (str "FOO") (str "GARBAGE")
     [str "GARBAGE"] (by decide) (by decide) (by decide),
   by
     have h := c4_amended_theorem.2.1 (str "ATZ\rOK\r\n") (str "ATZ")
       (str "OK") [str "OK"] ResultCode.OK (by decide) (by decide) (by decide)
     simpa using h⟩

/-- Claim C5: `Event.from_bytes` yields a bare-scalar event when the
stripped text has no `" = "` separator and otherwise a field map of the
`KEY = VALUE` pairs; on a field-map event `is_message_event` holds exactly
when the `MSG_WAITING` key is present and `is_call` exactly when `DATE`
and `TIME` keys are present and it is not a message event; the caller-ID
block classifies as a call with number `"5551234"` and the
message-waiting block as a message event, not a call. -/
theorem c5_theorem :
    (∀ bs : List Char, substrIn sepEq (pyStrip bs) = false →
       Event.from_bytes bs = some ⟨.scalar (pyStrip bs), bs⟩)
  ∧ (∀ (bs : List Char) (e : Event), Event.from_bytes bs = some e →
       substrIn sepEq (pyStrip bs) = true →
       ∃ m, e.data = .fields m ∧ buildDict (splitRuns (pyStrip bs)) = some m)
  ∧ (∀ (m : List (List Char × List Char)) (raw : List Char),
       Event.is_message_event ⟨.fields m, raw⟩ =
         m.any (fun p => p.1 == str "MSG_WAITING"))
  ∧ (∀ (m : List (List Char × List Char)) (raw : List Char),
       Event.is_call ⟨.fields m, raw⟩ =
         (m.any (fun p => p.1 == str "DATE") &&
          m.any (fun p => p.1 == str "TIME") &&
          !m.any (fun p => p.1 == str "MSG_WAITING")))
  ∧ (Event.from_bytes (str "DATE = 0101\rTIME = 1200\rNMBR = 5551234\r") =
       some callEv
     ∧ callEv.is_call = true
     ∧ Call.from_event callEv = some ⟨some (str "5551234"), none⟩)
  ∧ (Event.from_bytes (str "MSG_WAITING = 1\r") = some msgEv
     ∧ msgEv.is_message_event = true ∧ msgEv.is_call = false) := by
  refine ⟨?_, ?_, fun m raw => rfl, fun m raw => rfl, by decide, by decide⟩
  · intro bs h
    simp [Event.from_bytes, h]
  · intro bs e he hsep
    rw [Event.from_bytes, hsep] at he
    simp only [if_pos rfl] at he
    cases hbd : buildDict (splitRuns (pyStrip bs)) with
    | none => rw [hbd] at he; cases he
    | some m => rw [hbd] at he; cases he; exact ⟨m, rfl, rfl⟩

/-- Witness for C5 at concrete inputs. -/
theorem c5_witness :
    Event.from_bytes (str "RING") = some ⟨.scalar (str "RING"), str "RING"⟩
  ∧ Event.is_message_event ⟨.fields [(str "MSG_WAITING", str "1")], []⟩ =
      [(str "MSG_WAITING", str "1")].any (fun p => p.1 == str "MSG_WAITING") :=
  ⟨c5_theorem.1 (str "RING") (by decide),
   c5_theorem.2.2.1 [(str "MSG_WAITING", str "1")] []⟩

/-- Claim C10: on a bare-scalar event the classification predicates are
substring tests, not key lookups: `is_message_event` is containment of
`"MSG_WAITING"` in the scalar string, `is_call` is containment of both
`"DATE"` and `"TIME"` with no `"MSG_WAITING"`; the scalar
`"UPDATE TIMES"` therefore classifies as a call purely by substring
containment. -/
theorem c10_theorem :
    (∀ (s raw : List Char),
       Event.is_message_event ⟨.scalar s, raw⟩ = substrIn (str "MSG_WAITING") s)
  ∧ (∀ (s raw : List Char),
       Event.is_call ⟨.scalar s, raw⟩ =
         (substrIn (str "DATE") s && substrIn (str "TIME") s &&
          !substrIn (str "MSG_WAITING") s))
  ∧ Event.from_bytes (str "UPDATE TIMES") =
      some ⟨.scalar (str "UPDATE TIMES"), str "UPDATE TIMES"⟩
  ∧ Event.is_call ⟨.scalar (str "UPDATE TIMES"), str "UPDATE TIMES"⟩ = true
  ∧ Event.is_message_event ⟨.scalar (str "UPDATE TIMES"), str "UPDATE TIMES"⟩ =
      false := by
  exact ⟨fun s raw => rfl, fun s raw => rfl, by decide, by decide, by decide⟩

/-- Witness for C10 at a concrete input. -/
theorem c10_witness :
    Event.is_message_event ⟨.scalar (str "MSG_WAITING"), []⟩ =
      substrIn (str "MSG_WAITING") (str "MSG_WAITING") :=
  c10_theorem.1 (str "MSG_WAITING") []

/-- Claim C7: `set_mode` returns True and stores the requested mode
exactly when the response's result code is OK; otherwise it returns False
and leaves the stored mode (and everything else) unchanged — the model is
a total function, mirroring that the failure path logs and returns rather
than raising; `set_caller_id` returns True exactly when the result code
is OK. -/
theorem c7_theorem : ∀ (m : PyModem) (mode : Mode) (resp : CommandResponse),
    ((set_mode m mode resp).1 = true ↔ resp.result_code = ResultCode.OK)
  ∧ (resp.result_code = ResultCode.OK →
       set_mode m mode resp = (true, { m with mode := some mode }))
  ∧ (resp.result_code ≠ ResultCode.OK → set_mode m mode resp = (false, m))
  ∧ (set_caller_id resp = true ↔ resp.result_code = ResultCode.OK) := by
  intro m mode resp
  by_cases h : resp.result_code = ResultCode.OK <;>
    simp [set_mode, set_caller_id, CommandResponse.is_ok, h]

/-- Witness for C7 at concrete inputs. -/
theorem c7_witness :
    set_mode m0 Mode.VOICE respOK = (true, { m0 with mode := some Mode.VOICE })
  ∧ set_mode m0 Mode.VOICE { respOK with result_code := .ERROR } = (false, m0) :=
  ⟨(c7_theorem m0 Mode.VOICE respOK).2.1 rfl,
   (c7_theorem m0 Mode.VOICE { respOK with result_code := .ERROR }).2.2.1
     (by decide)⟩

/-- Claim C8: when the registered event-loop task finishes with an
uncaught failure (its exception slot is set), the completion callback
starts a fresh loop task (a new task id is registered and the spawn
counter increments); when it finishes by cancellation or normally (the
exception slot is empty) no new task is started and the supervisor state
is untouched. -/
theorem c8_theorem : ∀ (m : PyModem) (g : Nat) (outcome : TaskOutcome),
    m.event_loop = some g →
    ((∀ e, outcome = .failed e →
        (loop_done_callback m outcome).event_loop = some m.spawned ∧
        (loop_done_callback m outcome).spawned = m.spawned + 1)
  ∧ (taskException outcome = none → loop_done_callback m outcome = m)) := by
  intro m g outcome h
  constructor
  · intro e he
    subst he
    simp [loop_done_callback, taskException, start_event_loop]
  · intro hn
    simp [loop_done_callback, hn]

/-- Witness for C8 at concrete inputs. -/
theorem c8_witness :
    (loop_done_callback { m0 with event_loop := some 0, spawned := 1 }
       (.failed "boom")).spawned = 2
  ∧ loop_done_callback { m0 with event_loop := some 0, spawned := 1 }
      .cancelled = { m0 with event_loop := some 0, spawned := 1 } :=
  ⟨((c8_theorem { m0 with event_loop := some 0, spawned := 1 } 0
       (.failed "boom") rfl).1 "boom" rfl).2,
   (c8_theorem { m0 with event_loop := some 0, spawned := 1 } 0
       .cancelled rfl).2 rfl⟩

/-- Python truncation of a rational that is a natural number is that
number. -/
theorem pyInt_natCast (n : Nat) : pyInt ((n : Nat) : Rat) = (n : Int) := by
  unfold pyInt
  rw [Rat.num_natCast, Rat.den_natCast]
  cases n with
  | zero => simp
  | succ k =>
    have hpos : (0 : Int) < ((k + 1 : Nat) : Int) := by positivity
    rw [Int.sign_eq_one_of_pos hpos]
    simp
    omega

/-- The silence generator yields exactly `seconds * framerate` bytes for a
whole number of seconds. -/
theorem silence_length (s framerate : Nat) :
    (silence (s : Rat) framerate).length = s * framerate := by
  have h : ((s : Rat) * (framerate : Rat)) = ((s * framerate : Nat) : Rat) := by
    push_cast
    ring
  unfold silence
  rw [h, pyInt_natCast, Int.toNat_natCast, List.length_replicate]

/-- One second of silence at the default rate is 8000 bytes of `0x80`. -/
theorem silence_one : silence 1 8000 = List.replicate 8000 0x80 := by
  have h : pyInt ((1 : Rat) * ((8000 : Nat) : Rat)) = ((8000 : Nat) : Int) := by
    rw [one_mul, pyInt_natCast]
  unfold silence
  rw [h, Int.toNat_natCast]

/-- Claim C9: `wav_duration` reports `nframes / framerate` seconds, so
8000 frames at 8000 Hz is exactly 1.0 s; and `silence` produces
`framerate` bytes of `0x80` payload per second — 8000 bytes per second at
the default rate. -/
theorem c9_theorem :
    wav_duration (some (8000, 8000)) = some 1
  ∧ (∀ framerate nframes : Nat,
       wav_duration (some (framerate, nframes)) =
         some ((nframes : Rat) / (framerate : Rat)))
  ∧ (∀ s framerate : Nat, (silence (s : Rat) framerate).length = s * framerate)
  ∧ (silence 1 8000).length = 8000
  ∧ silence 1 8000 = List.replicate 8000 0x80 := by
  refine ⟨by norm_num [wav_duration], fun framerate nframes => rfl,
          fun s framerate => silence_length s framerate, ?_, silence_one⟩
  rw [silence_one, List.length_replicate]

/-- Witness for C9 at a concrete input. -/
theorem c9_witness : (silence ((2 : Nat) : Rat) 8000).length = 2 * 8000 :=
  c9_theorem.2.2.1 2 8000

/-- `CommandResponse.from_bytes` always stores its input as `raw`. -/
theorem from_bytes_raw {bs : List Char} {r : CommandResponse}
    (h : CommandResponse.from_bytes bs = some r) : r.raw = bs := by
  unfold CommandResponse.from_bytes at h
  repeat' split at h
  all_goals cases h
  all_goals rfl

/-- Each turn of the `send` loop yields a response whose raw bytes begin
with the awaited command's echo. -/
theorem sendStep_raw {trailer cmd stream : List Char} {r : CommandResponse}
    {rest : List Char}
    (h : sendStep trailer cmd stream = some (r, rest)) : cmd <+: r.raw := by
  simp only [sendStep, Option.bind_eq_bind, Option.bind_eq_some] at h
  obtain ⟨p, hp, q, hq, r1, hr1, h⟩ := h
  cases h
  rw [from_bytes_raw hr1]
  exact ⟨q.2, rfl⟩

/-- The `send` loop produces exactly one response per command, pointwise
in issue order: the i-th response's raw bytes begin with the i-th
command. -/
theorem sendGo_spec (trailer : List Char) :
    ∀ (cmds : List (List Char)) (stream : List Char)
      (rs : List CommandResponse),
      sendGo trailer cmds stream = some rs →
      List.Forall₂ (fun c r => c <+: r.raw) cmds rs := by
  intro cmds
  induction cmds with
  | nil =>
    intro stream rs h
    cases h
    exact .nil
  | cons c rest ih =>
    intro stream rs h
    simp only [sendGo, Option.bind_eq_bind, Option.bind_eq_some] at h
    obtain ⟨p, hstep, rs1, hgo, h⟩ := h
    obtain ⟨r, stream1⟩ := p
    cases h
    exact .cons (sendStep_raw hstep) (ih _ _ hgo)

/-- Claim C6: whenever `send` returns, the result for two or more command
fragments is a list with exactly one `CommandResponse` per fragment,
pointwise in the order the commands were issued (each response's raw
bytes begin with the corresponding commandified fragment, even though all
fragments were pipelined in one `';'`-joined write), while a single
fragment yields a bare `CommandResponse`, not a list. -/
theorem c6_theorem : ∀ (s3 s4 : List Char) (cmds : List (List Char))
    (stream : List Char) (res : SendResult),
    send s3 s4 cmds stream = some res →
    ((∀ r, res = .single r →
        cmds.length = 1 ∧
        List.Forall₂ (fun c r' => commandify s3 c <+: r'.raw) cmds [r])
   ∧ (∀ rs, res = .multiple rs →
        2 ≤ cmds.length ∧ rs.length = cmds.length ∧
        List.Forall₂ (fun c r' => commandify s3 c <+: r'.raw) cmds rs)
   ∧ (cmds.length = 1 → ∃ r, res = .single r)) := by
  intro s3 s4 cmds stream res h
  unfold send at h
  cases hgo : sendGo (s3 ++ s4) (cmds.map (commandify s3)) stream with
  | none => rw [hgo] at h; cases h
  | some rs0 =>
    rw [hgo] at h
    have F : List.Forall₂ (fun c r' => commandify s3 c <+: r'.raw) cmds rs0 :=
      List.forall₂_map_left_iff.mp (sendGo_spec _ _ _ _ hgo)
    have hlen : cmds.length = rs0.length := by
      have := F.length_eq
      simpa using this
    cases rs0 with
    | nil => cases h
    | cons r1 t =>
      cases t with
      | nil =>
        cases h
        refine ⟨?_, ?_, ?_⟩
        · intro r hr
          cases hr
          exact ⟨by simpa using hlen, F⟩
        · intro rs hr
          cases hr
        · intro _
          exact ⟨r1, rfl⟩
      | cons r2 t2 =>
        cases h
        refine ⟨?_, ?_, ?_⟩
        · intro r hr
          cases hr
        · intro rs hr
          cases hr
          refine ⟨?_, hlen.symm, F⟩
          rw [hlen]
          simp only [List.length_cons]
          omega
        · intro h1
          exfalso
          rw [h1] at hlen
          simp only [List.length_cons] at hlen
          omega

/-- Witness for C6: two pipelined commands against a concrete stream come
back as a two-element list in issue order. -/
theorem c6_witness :
    2 ≤ ([str "ATZ", str "I3"] : List (List Char)).length
  ∧ demoRs.length = ([str "ATZ", str "I3"] : List (List Char)).length
  ∧ List.Forall₂ (fun c r' => commandify (str "\r") c <+: r'.raw)
      [str "ATZ", str "I3"] demoRs :=
  (c6_theorem (str "\r") (str "\n") [str "ATZ", str "I3"] demoStream
      (.multiple demoRs) (by decide)).2.1 demoRs rfl
